import Mathlib

/-!
Verification development for the Piwik PRO MCP annotation adapter.

The definitions below are a shallow embedding of the two layers of the
adapter:

* `src/piwik_pro_mcp/api/methods/analytics/models.py` — the pydantic
  response models, embedded as Lean structures together with executable
  parse functions returning `Option` (where `none` models a pydantic
  `ValidationError`);
* `src/piwik_pro_mcp/api/methods/analytics/api.py` — the `AnalyticsAPI`
  resource-client methods, embedded as pure functions from a stubbed HTTP
  client to the parsed result paired with the HTTP request they issue;
* `src/piwik_pro_mcp/tools/analytics/annotations.py` — the MCP tool
  functions, embedded as functions returning `Except ToolError` results
  paired with the ordered list of HTTP requests actually issued before
  returning or raising.

The Python tools construct a fresh client via `create_piwik_client()` on
every invocation; the embedding makes that client an explicit parameter.
-/

/-! ## Response data model (models.py) -/

/-- `AnnotationAuthor` (models.py): author info, `email` required. -/
structure AnnotationAuthor where
  email : String
deriving DecidableEq, Repr

/-- `UserAnnotationAttributes` (models.py): `date` and `content` required,
the rest optional (defaulting to `None`). -/
structure UserAnnotationAttributes where
  date : String
  content : String
  visibility : Option String
  website_id : Option String
  author : Option AnnotationAuthor
  is_author : Option Bool
deriving DecidableEq, Repr

/-- `SystemAnnotationAttributes` (models.py): `date` and `content` required. -/
structure SystemAnnotationAttributes where
  date : String
  content : String
deriving DecidableEq, Repr

/-- `UserAnnotationResource` (models.py): `id` required, `type` constrained
by pydantic to the literal string `"UserAnnotation"`, `attributes` required. -/
structure UserAnnotationResource where
  id : String
  type : String
  attributes : UserAnnotationAttributes
deriving DecidableEq, Repr

/-- `SystemAnnotationResource` (models.py): `id` required, `type` constrained
to the literal string `"SystemAnnotation"`, `attributes` required. -/
structure SystemAnnotationResource where
  id : String
  type : String
  attributes : SystemAnnotationAttributes
deriving DecidableEq, Repr

/-- Modelled from the spec: the shared `Meta` pagination model
(`piwik_pro_mcp/api/methods/common`, not under `src/`) — "pagination
metadata (total count)", a required integer `total`. -/
structure Meta where
  total : Int
deriving DecidableEq, Repr

/-- `UserAnnotationSingleResponse` (models.py): `data` required. -/
structure UserAnnotationSingleResponse where
  data : UserAnnotationResource
deriving DecidableEq, Repr

/-- `UserAnnotationListResponse` (models.py): `data` and `meta` required. -/
structure UserAnnotationListResponse where
  data : List UserAnnotationResource
  meta : Meta
deriving DecidableEq, Repr

/-- `SystemAnnotationListResponse` (models.py): `data` and `meta` required. -/
structure SystemAnnotationListResponse where
  data : List SystemAnnotationResource
  meta : Meta
deriving DecidableEq, Repr

/-! ## Raw response bodies and pydantic validation

A raw body is the JSON dictionary handed back by the HTTP client before
pydantic validation.  Each field that the JSON may or may not carry is an
`Option`; parsing a model with a required field fails (`none`, modelling a
pydantic `ValidationError`) when that field is absent. -/

/-- Raw author object as found in a response body. -/
structure RawAuthor where
  email : Option String
deriving DecidableEq, Repr

/-- Raw `attributes` object of an annotation resource. -/
structure RawAttributes where
  date : Option String
  content : Option String
  visibility : Option String
  website_id : Option String
  author : Option RawAuthor
  is_author : Option Bool
deriving DecidableEq, Repr

/-- Raw annotation resource object: `id`, `type`, `attributes` as they
appear (or are missing) in the JSON. -/
structure RawResource where
  id : Option String
  type : Option String
  attributes : Option RawAttributes
deriving DecidableEq, Repr

/-- The `data` member of a raw body: a single resource or a list. -/
inductive RawData where
  | single (r : RawResource)
  | list (rs : List RawResource)
deriving DecidableEq, Repr

/-- Raw `meta` object. -/
structure RawMeta where
  total : Option Int
deriving DecidableEq, Repr

/-- A raw JSON response body (a Python dict). -/
structure RawBody where
  data : Option RawData
  meta : Option RawMeta
deriving DecidableEq, Repr

/-- The empty dict `\x7b\x7d` that `response or \x7b\x7d` substitutes for a
missing body. -/
def emptyRawBody : RawBody := ⟨none, none⟩

/-- Validation of `AnnotationAuthor`: `email` is required. -/
def parseAuthor (r : RawAuthor) : Option AnnotationAuthor :=
  match r.email with
  | some e => some ⟨e⟩
  | none => none

/-- Validation of `UserAnnotationAttributes`: `date` and `content`
required; `visibility`, `website_id`, `is_author` pass through as
optionals; a present `author` object must itself validate. -/
def parseUserAttributes (r : RawAttributes) : Option UserAnnotationAttributes :=
  match r.date, r.content with
  | some d, some c =>
    match r.author with
    | none => some ⟨d, c, r.visibility, r.website_id, none, r.is_author⟩
    | some a =>
      match parseAuthor a with
      | some pa => some ⟨d, c, r.visibility, r.website_id, some pa, r.is_author⟩
      | none => none
  | _, _ => none

/-- Validation of `SystemAnnotationAttributes`: `date` and `content` required. -/
def parseSystemAttributes (r : RawAttributes) : Option SystemAnnotationAttributes :=
  match r.date, r.content with
  | some d, some c => some ⟨d, c⟩
  | _, _ => none

/-- Validation of `UserAnnotationResource`: `id` required, `type` must be
exactly the literal `"UserAnnotation"`, `attributes` required and valid. -/
def parseUserResource (r : RawResource) : Option UserAnnotationResource :=
  match r.id, r.type, r.attributes with
  | some i, some t, some a =>
    if t = "UserAnnotation" then
      match parseUserAttributes a with
      | some pa => some ⟨i, t, pa⟩
      | none => none
    else none
  | _, _, _ => none

/-- Validation of `SystemAnnotationResource`: `id` required, `type` must be
exactly the literal `"SystemAnnotation"`, `attributes` required and valid. -/
def parseSystemResource (r : RawResource) : Option SystemAnnotationResource :=
  match r.id, r.type, r.attributes with
  | some i, some t, some a =>
    if t = "SystemAnnotation" then
      match parseSystemAttributes a with
      | some pa => some ⟨i, t, pa⟩
      | none => none
    else none
  | _, _, _ => none

/-- Validation of `Meta`: `total` required. -/
def parseMeta (r : RawMeta) : Option Meta :=
  match r.total with
  | some t => some ⟨t⟩
  | none => none

/-- Validation of `UserAnnotationSingleResponse`: a required `data` member
holding a single valid user-annotation resource. -/
def parseUserSingle (b : RawBody) : Option UserAnnotationSingleResponse :=
  match b.data with
  | some (RawData.single r) =>
    match parseUserResource r with
    | some pr => some ⟨pr⟩
    | none => none
  | _ => none

/-- Helper: validate every resource of a raw list. -/
def parseUserResourceList : List RawResource → Option (List UserAnnotationResource)
  | [] => some []
  | r :: rs =>
    match parseUserResource r, parseUserResourceList rs with
    | some pr, some prs => some (pr :: prs)
    | _, _ => none

/-- Helper: validate every resource of a raw list as system annotations. -/
def parseSystemResourceList : List RawResource → Option (List SystemAnnotationResource)
  | [] => some []
  | r :: rs =>
    match parseSystemResource r, parseSystemResourceList rs with
    | some pr, some prs => some (pr :: prs)
    | _, _ => none

/-- Validation of `UserAnnotationListResponse`: required `data` list of
valid resources and required valid `meta`. -/
def parseUserList (b : RawBody) : Option UserAnnotationListResponse :=
  match b.data, b.meta with
  | some (RawData.list rs), some m =>
    match parseUserResourceList rs, parseMeta m with
    | some prs, some pm => some ⟨prs, pm⟩
    | _, _ => none
  | _, _ => none

/-- Validation of `SystemAnnotationListResponse`: required `data` list of
valid resources and required valid `meta`. -/
def parseSystemList (b : RawBody) : Option SystemAnnotationListResponse :=
  match b.data, b.meta with
  | some (RawData.list rs), some m =>
    match parseSystemResourceList rs, parseMeta m with
    | some prs, some pm => some ⟨prs, pm⟩
    | _, _ => none
  | _, _ => none

/-! ## HTTP requests and the stubbed HTTP client (api.py) -/

/-- A value of the query-parameter dict built by the resource client:
`website_id` is a string, `limit`/`offset` are integers, `date_from` /
`date_to` are lists of strings. -/
inductive ParamValue where
  | str (s : String)
  | int (n : Int)
  | listStr (xs : List String)
deriving DecidableEq, Repr

/-- The JSON:API request body
`\x7b"data": \x7b"type", "id"?, "attributes"\x7d\x7d` built by create/update. -/
structure AnnotationPayload where
  type : String
  id : Option String
  attributes : List (String × String)
deriving DecidableEq, Repr

/-- An HTTP request issued through the client collaborator. -/
inductive HttpRequest where
  | get (path : String) (params : List (String × ParamValue))
  | post (path : String) (body : AnnotationPayload)
  | patch (path : String) (body : AnnotationPayload)
  | delete (path : String) (params : List (String × ParamValue))
deriving DecidableEq, Repr

/-- The stubbed HTTP client collaborator: a deterministic response (an
optional raw JSON body; `none` models a bodiless response such as 204) for
each method/path/argument combination.  Transport errors are out of scope:
the adapter propagates them verbatim without inspecting them. -/
structure HttpClient where
  getResp : String → List (String × ParamValue) → Option RawBody
  postResp : String → AnnotationPayload → Option RawBody
  patchResp : String → AnnotationPayload → Option RawBody
  deleteResp : String → List (String × ParamValue) → Option RawBody

/-- `_USER_ANNOTATIONS_BASE` (api.py). -/
def USER_ANNOTATIONS_BASE : String := "/api/analytics/v1/manage/annotation/user"

/-- `_SYSTEM_ANNOTATIONS_BASE` (api.py). -/
def SYSTEM_ANNOTATIONS_BASE : String := "/api/analytics/v1/manage/annotation/system"

/-- The `attributes` dict built by `create_user_annotation` and
`update_user_annotation` (api.py): `website_id`, `content`, `date` always,
then `visibility` added only when it is not `None`. -/
def buildAttributes (app_id content date : String) (visibility : Option String) :
    List (String × String) :=
  [("website_id", app_id), ("content", content), ("date", date)] ++
    (match visibility with
     | some v => [("visibility", v)]
     | none => [])

/-- `AnalyticsAPI.create_user_annotation` (api.py): posts the JSON:API
payload to the user base endpoint and validates the response (with a
missing body replaced by the empty dict). -/
def create_user_annotation (client : HttpClient) (app_id content date : String)
    (visibility : Option String) :
    Option UserAnnotationSingleResponse × HttpRequest :=
  let body : AnnotationPayload :=
    ⟨"UserAnnotation", none, buildAttributes app_id content date visibility⟩
  let path := USER_ANNOTATIONS_BASE ++ "/"
  (parseUserSingle ((client.postResp path body).getD emptyRawBody),
   HttpRequest.post path body)

/-- The query-parameter dict built by `list_user_annotations` (api.py):
`website_id` always; `limit`, `offset`, `date_from`, `date_to` added in
that order, each only when not `None`; date lists are kept as lists. -/
def userListParams (app_id : String) (date_from date_to : Option (List String))
    (limit offset : Option Int) : List (String × ParamValue) :=
  [("website_id", ParamValue.str app_id)] ++
    (match limit with
     | some l => [("limit", ParamValue.int l)]
     | none => []) ++
    (match offset with
     | some o => [("offset", ParamValue.int o)]
     | none => []) ++
    (match date_from with
     | some df => [("date_from", ParamValue.listStr df)]
     | none => []) ++
    (match date_to with
     | some dt => [("date_to", ParamValue.listStr dt)]
     | none => [])

/-- The query-parameter dict built by `list_system_annotations` (api.py):
as for the user list, but with no `website_id`. -/
def systemListParams (date_from date_to : Option (List String))
    (limit offset : Option Int) : List (String × ParamValue) :=
  (match limit with
   | some l => [("limit", ParamValue.int l)]
   | none => []) ++
    (match offset with
     | some o => [("offset", ParamValue.int o)]
     | none => []) ++
    (match date_from with
     | some df => [("date_from", ParamValue.listStr df)]
     | none => []) ++
    (match date_to with
     | some dt => [("date_to", ParamValue.listStr dt)]
     | none => [])

/-- `AnalyticsAPI.list_user_annotations` (api.py). -/
def list_user_annotations (client : HttpClient) (app_id : String)
    (date_from date_to : Option (List String)) (limit offset : Option Int) :
    Option UserAnnotationListResponse × HttpRequest :=
  let params := userListParams app_id date_from date_to limit offset
  let path := USER_ANNOTATIONS_BASE ++ "/"
  (parseUserList ((client.getResp path params).getD emptyRawBody),
   HttpRequest.get path params)

/-- `AnalyticsAPI.list_system_annotations` (api.py). -/
def list_system_annotations (client : HttpClient)
    (date_from date_to : Option (List String)) (limit offset : Option Int) :
    Option SystemAnnotationListResponse × HttpRequest :=
  let params := systemListParams date_from date_to limit offset
  let path := SYSTEM_ANNOTATIONS_BASE ++ "/"
  (parseSystemList ((client.getResp path params).getD emptyRawBody),
   HttpRequest.get path params)

/-- `AnalyticsAPI.get_user_annotation` (api.py). -/
def get_user_annotation (client : HttpClient) (annotation_id app_id : String) :
    Option UserAnnotationSingleResponse × HttpRequest :=
  let params := [("website_id", ParamValue.str app_id)]
  let path := USER_ANNOTATIONS_BASE ++ "/" ++ annotation_id ++ "/"
  (parseUserSingle ((client.getResp path params).getD emptyRawBody),
   HttpRequest.get path params)

/-- `AnalyticsAPI.delete_user_annotation` (api.py): issues the delete and
returns `None` without reading the response body at all. -/
def delete_user_annotation (annotation_id app_id : String) : HttpRequest :=
  let params := [("website_id", ParamValue.str app_id)]
  HttpRequest.delete (USER_ANNOTATIONS_BASE ++ "/" ++ annotation_id ++ "/") params

/-- `AnalyticsAPI.update_user_annotation` (api.py). -/
def update_user_annotation (client : HttpClient) (annotation_id app_id content date : String)
    (visibility : Option String) :
    Option UserAnnotationSingleResponse × HttpRequest :=
  let body : AnnotationPayload :=
    ⟨"UserAnnotation", some annotation_id, buildAttributes app_id content date visibility⟩
  let path := USER_ANNOTATIONS_BASE ++ "/" ++ annotation_id ++ "/"
  (parseUserSingle ((client.patchResp path body).getD emptyRawBody),
   HttpRequest.patch path body)

/-! ## Tool layer (tools/analytics/annotations.py) -/

/-- A Python exception raised by a tool invocation:
`validationError` is a pydantic `ValidationError` while parsing a
response; `attributeError` models Python `AttributeError`;
`runtimeError` is an explicit `raise RuntimeError(msg)`. -/
inductive ToolError where
  | validationError
  | attributeError (msg : String)
  | runtimeError (msg : String)
deriving DecidableEq, Repr

/-- `AnnotationResource` (tools/analytics/models.py):
`Union[UserAnnotationResource, SystemAnnotationResource]`. -/
inductive AnnotationResource where
  | user (r : UserAnnotationResource)
  | system (r : SystemAnnotationResource)
deriving DecidableEq, Repr

/-- The sort key used at annotations.py line 89: `x.attributes.date`. -/
def AnnotationResource.date : AnnotationResource → String
  | AnnotationResource.user r => r.attributes.date
  | AnnotationResource.system r => r.attributes.date

/-- `AnnotationsList` (tools/analytics/models.py): combined list output;
`meta` is a plain string-keyed dict, here populated as at annotations.py
line 95 with the single key `"total"`. -/
structure AnnotationsList where
  data : List AnnotationResource
  meta : List (String × Nat)
deriving DecidableEq, Repr

/-- Stable insertion of one element into a descending-by-date list: the
element is placed before the first entry whose date is not greater, so an
earlier element stays before later elements with an equal date. -/
def insertDesc (x : AnnotationResource) : List AnnotationResource → List AnnotationResource
  | [] => [x]
  | y :: ys =>
    if AnnotationResource.date y ≤ AnnotationResource.date x then x :: y :: ys
    else y :: insertDesc x ys

/-- `combined.sort(key=lambda x: x.attributes.date, reverse=True)`
(annotations.py line 89): Python guarantees a stable sort, and
`reverse=True` does not reverse ties; embedded as a stable descending
insertion sort on the date key. -/
def pySortDescByDate : List AnnotationResource → List AnnotationResource
  | [] => []
  | x :: xs => insertDesc x (pySortDescByDate xs)

/-- Annotations.py lines 88–95: `combined = user_resp.data + system_resp.data`
crashes with `AttributeError` when either response is still `None` (no
source branch assigned it); otherwise the concatenation is sorted
descending by date and wrapped with `meta = \x7b"total": len(user_resp.data)
+ len(system_resp.data)\x7d`. -/
def mergeResponses (user_resp : Option UserAnnotationListResponse)
    (system_resp : Option SystemAnnotationListResponse) :
    Except ToolError AnnotationsList :=
  match user_resp, system_resp with
  | none, _ =>
    Except.error (ToolError.attributeError "NoneType object has no attribute data")
  | some _, none =>
    Except.error (ToolError.attributeError "NoneType object has no attribute data")
  | some u, some s =>
    let combined :=
      u.data.map AnnotationResource.user ++ s.data.map AnnotationResource.system
    Except.ok ⟨pySortDescByDate combined, [("total", u.data.length + s.data.length)]⟩

/-- Python `str.lower()` for the ASCII source selectors used here,
embedded structurally over the character list so that it computes. -/
def pyLower (s : String) : String := ⟨s.data.map Char.toLower⟩

/-- Annotations.py lines 79–87: `src = (source or "all").lower()` (the
empty string is falsy in Python), then the membership tests
`src in ("all", "user")` and `src in ("all", "system")` selecting the user
and the system fetch respectively. -/
def selectSource (source : String) : Bool × Bool :=
  let src := pyLower (if source = "" then "all" else source)
  (src == "all" || src == "user", src == "all" || src == "system")

/-- Annotations.py lines 79–95 (after the date validation): source
selection, the sequential fetches, and the merge.  The user fetch runs
first; a pydantic error aborts before the system fetch.  The trace is the
list of HTTP requests issued, in order. -/
def listCore (client : HttpClient) (app_id : String)
    (date_from date_to : Option (List String)) (source : String)
    (limit offset : Int) : Except ToolError AnnotationsList × List HttpRequest :=
  let doUser := (selectSource source).1
  let doSystem := (selectSource source).2
  if doUser then
    let u := list_user_annotations client app_id date_from date_to (some limit) (some offset)
    match u.1 with
    | none => (Except.error ToolError.validationError, [u.2])
    | some userResp =>
      if doSystem then
        let s := list_system_annotations client date_from date_to (some limit) (some offset)
        match s.1 with
        | none => (Except.error ToolError.validationError, [u.2, s.2])
        | some sysResp => (mergeResponses (some userResp) (some sysResp), [u.2, s.2])
      else (mergeResponses (some userResp) none, [u.2])
  else
    if doSystem then
      let s := list_system_annotations client date_from date_to (some limit) (some offset)
      match s.1 with
      | none => (Except.error ToolError.validationError, [s.2])
      | some sysResp => (mergeResponses none (some sysResp), [s.2])
    else (mergeResponses none none, [])

/-- `analytics_annotations_list` (annotations.py lines 48–95): the
date-length cross-validation (lines 72–73) runs before any fetch; then
source selection, fetches and merge. -/
def analytics_annotations_list (client : HttpClient) (app_id : String)
    (date_from date_to : Option (List String)) (source : String)
    (limit offset : Int) : Except ToolError AnnotationsList × List HttpRequest :=
  match date_from, date_to with
  | some df, some dt =>
    if df.length ≠ dt.length then
      (Except.error (ToolError.runtimeError
        "date_from and date_to must have the same number of items"), [])
    else listCore client app_id date_from date_to source limit offset
  | _, _ => listCore client app_id date_from date_to source limit offset

/-- `analytics_annotations_delete` (annotations.py lines 107–117).  The
tool first runs `get_user_annotation` (whose pydantic validation raises on
anything that is not a `UserAnnotation` resource).  On a successful fetch,
line 114 evaluates `(details or \x7b\x7d).get("data", \x7b\x7d)`: `details`
is a pydantic `UserAnnotationSingleResponse` (truthy, and without a `get`
attribute), so this raises `AttributeError` — lines 115–117, including the
system-annotation guard and the delete call, are unreachable. -/
def analytics_annotations_delete (client : HttpClient)
    (annotation_id app_id : String) : Except ToolError Unit × List HttpRequest :=
  let g := get_user_annotation client annotation_id app_id
  match g.1 with
  | none => (Except.error ToolError.validationError, [g.2])
  | some _details =>
    (Except.error (ToolError.attributeError
      "UserAnnotationSingleResponse object has no attribute get"), [g.2])

/-! ## Query encoding, helpers and concrete fixtures -/

/-- Modelled from the spec: the external `requests` HTTP library (not part
of this repository) encodes a list-valued query-parameter as repeated key
occurrences, one per element — see the source comment at api.py line 94
("requests will encode lists as repeated keys") and spec §4.1/§8. -/
def encodeQuery : List (String × ParamValue) → List (String × String)
  | [] => []
  | (k, ParamValue.str s) :: rest => (k, s) :: encodeQuery rest
  | (k, ParamValue.int n) :: rest => (k, toString n) :: encodeQuery rest
  | (k, ParamValue.listStr xs) :: rest => xs.map (fun s => (k, s)) ++ encodeQuery rest

/-- The occurrences of one key in an encoded query string, in order. -/
def filterKey (k : String) : List (String × String) → List (String × String)
  | [] => []
  | p :: rest => if p.1 = k then p :: filterKey k rest else filterKey k rest

/-- The `attributes` dict of the JSON:API payload carried by a request
(empty for requests that carry no body). -/
def payloadAttributes : HttpRequest → List (String × String)
  | HttpRequest.post _ b => b.attributes
  | HttpRequest.patch _ b => b.attributes
  | _ => []

/-- The date-list cross-validation predicate of annotations.py lines
72–73: lengths must agree when both lists are supplied. -/
def datesLenOk : Option (List String) → Option (List String) → Bool
  | some df, some dt => df.length == dt.length
  | _, _ => true

/-- A raw user-annotation resource as the vendor returns it. -/
def sampleUserRaw (i d c : String) : RawResource :=
  ⟨some i, some "UserAnnotation",
   some ⟨some d, some c, some "private", some "app-1", none, some true⟩⟩

/-- A raw system-annotation resource as the vendor returns it. -/
def sampleSystemRaw (i d c : String) : RawResource :=
  ⟨some i, some "SystemAnnotation", some ⟨some d, some c, none, none, none, none⟩⟩

/-- A stub client all of whose responses have no body. -/
def clientNone : HttpClient :=
  ⟨fun _ _ => none, fun _ _ => none, fun _ _ => none, fun _ _ => none⟩

/-- A stub client whose GET responses carry one valid user annotation. -/
def clientUserSingle : HttpClient :=
  ⟨fun _ _ => some ⟨some (RawData.single (sampleUserRaw "ann-user" "2024-02-01" "launch")), none⟩,
   fun _ _ => none, fun _ _ => none, fun _ _ => none⟩

/-- A stub client whose GET responses carry one system annotation (kind
`SystemAnnotation`), as the vendor would report for a system-owned record. -/
def clientSysSingle : HttpClient :=
  ⟨fun _ _ => some ⟨some (RawData.single (sampleSystemRaw "ann-sys" "2024-02-01" "maintenance")), none⟩,
   fun _ _ => none, fun _ _ => none, fun _ _ => none⟩

/-- A list body with two user annotations (dates 2024-03-05, 2024-03-01). -/
def userListBody : RawBody :=
  ⟨some (RawData.list
    [ sampleUserRaw "u1" "2024-03-05" "user a", sampleUserRaw "u2" "2024-03-01" "user b"]),
   some ⟨some 2⟩⟩

/-- A list body with three system annotations (dates 2024-03-05,
2024-03-09, 2024-03-01). -/
def sysListBody : RawBody :=
  ⟨some (RawData.list
    [ sampleSystemRaw "s1" "2024-03-05" "sys a", sampleSystemRaw "s2" "2024-03-09" "sys b",
      sampleSystemRaw "s3" "2024-03-01" "sys c"]),
   some ⟨some 3⟩⟩

/-- A stub client serving `userListBody` on the user list endpoint and
`sysListBody` on the system list endpoint. -/
def clientBoth : HttpClient :=
  ⟨fun path _ =>
     if path = SYSTEM_ANNOTATIONS_BASE ++ "/" then some sysListBody else some userListBody,
   fun _ _ => none, fun _ _ => none, fun _ _ => none⟩

/-- The validated form of `sampleUserRaw`. -/
def sampleUserParsed (i d c : String) : UserAnnotationResource :=
  ⟨i, "UserAnnotation", ⟨d, c, some "private", some "app-1", none, some true⟩⟩

/-- The validated form of `sampleSystemRaw`. -/
def sampleSystemParsed (i d c : String) : SystemAnnotationResource :=
  ⟨i, "SystemAnnotation", ⟨d, c⟩⟩

/-! ## Helper lemmas about the stable descending sort -/

theorem insertDesc_perm (x : AnnotationResource) (l : List AnnotationResource) :
    (insertDesc x l).Perm (x :: l) := by
  induction l with
  | nil => exact List.Perm.refl _
  | cons y ys ih =>
    simp only [insertDesc]
    split
    · exact List.Perm.refl _
    · exact (ih.cons y).trans (List.Perm.swap x y ys)

theorem pySortDescByDate_perm (l : List AnnotationResource) :
    (pySortDescByDate l).Perm l := by
  induction l with
  | nil => exact List.Perm.refl _
  | cons x xs ih => exact (insertDesc_perm x (pySortDescByDate xs)).trans (ih.cons x)

theorem mem_insertDesc {z x : AnnotationResource} {l : List AnnotationResource}
    (h : z ∈ insertDesc x l) : z = x ∨ z ∈ l := by
  have h2 := (insertDesc_perm x l).mem_iff.mp h
  simpa using h2

theorem insertDesc_sorted {x : AnnotationResource} {l : List AnnotationResource}
    (h : l.Pairwise (fun a b => AnnotationResource.date b ≤ AnnotationResource.date a)) :
    (insertDesc x l).Pairwise
      (fun a b => AnnotationResource.date b ≤ AnnotationResource.date a) := by
  induction l with
  | nil => simp [insertDesc]
  | cons y ys ih =>
    rcases List.pairwise_cons.mp h with ⟨hy, hys⟩
    simp only [insertDesc]
    split
    case isTrue hle =>
      refine List.pairwise_cons.mpr ⟨?_, h⟩
      intro z hz
      rcases List.mem_cons.mp hz with rfl | hz
      · exact hle
      · exact le_trans (hy z hz) hle
    case isFalse hgt =>
      refine List.pairwise_cons.mpr ⟨?_, ih hys⟩
      intro z hz
      rcases mem_insertDesc hz with rfl | hz
      · exact le_of_not_le hgt
      · exact hy z hz

theorem pySortDescByDate_sorted (l : List AnnotationResource) :
    (pySortDescByDate l).Pairwise
      (fun a b => AnnotationResource.date b ≤ AnnotationResource.date a) := by
  induction l with
  | nil => simp [pySortDescByDate]
  | cons x xs ih => exact insertDesc_sorted ih

theorem filter_insertDesc_pos {x : AnnotationResource} {d : String}
    (hx : AnnotationResource.date x = d) (l : List AnnotationResource) :
    (insertDesc x l).filter (fun a => AnnotationResource.date a == d)
      = x :: l.filter (fun a => AnnotationResource.date a == d) := by
  induction l with
  | nil => simp [insertDesc, hx]
  | cons y ys ih =>
    simp only [insertDesc]
    split
    case isTrue hle => simp [List.filter_cons, hx]
    case isFalse hgt =>
      have hyb : (AnnotationResource.date y == d) = false := by
        apply beq_eq_false_iff_ne.mpr
        intro hyd
        exact hgt (by rw [hyd, hx])
      simp [List.filter_cons, hyb, ih]

theorem filter_insertDesc_neg {x : AnnotationResource} {d : String}
    (hx : AnnotationResource.date x ≠ d) (l : List AnnotationResource) :
    (insertDesc x l).filter (fun a => AnnotationResource.date a == d)
      = l.filter (fun a => AnnotationResource.date a == d) := by
  have hxb : (AnnotationResource.date x == d) = false := beq_eq_false_iff_ne.mpr hx
  induction l with
  | nil => simp [insertDesc, hxb]
  | cons y ys ih =>
    simp only [insertDesc]
    split
    · simp [List.filter_cons, hxb]
    · simp [List.filter_cons, ih]

theorem pySortDescByDate_filter (l : List AnnotationResource) (d : String) :
    (pySortDescByDate l).filter (fun a => AnnotationResource.date a == d)
      = l.filter (fun a => AnnotationResource.date a == d) := by
  induction l with
  | nil => rfl
  | cons x xs ih =>
    by_cases hx : AnnotationResource.date x = d
    · simp only [pySortDescByDate, filter_insertDesc_pos hx, ih, List.filter_cons]
      simp [hx]
    · simp only [pySortDescByDate, filter_insertDesc_neg hx, ih, List.filter_cons]
      simp [hx]

/-! ## Helper lemmas about the list tool -/

theorem listCore_all_eq (client : HttpClient) (app_id : String)
    (date_from date_to : Option (List String)) (limit offset : Int)
    (uResp : UserAnnotationListResponse) (sResp : SystemAnnotationListResponse)
    (hu : ( list_user_annotations client app_id date_from date_to
        (some limit) (some offset)).1 = some uResp)
    (hs : ( list_system_annotations client date_from date_to
        (some limit) (some offset)).1 = some sResp) :
    listCore client app_id date_from date_to "all" limit offset
      = (mergeResponses (some uResp) (some sResp),
         [( list_user_annotations client app_id date_from date_to
              (some limit) (some offset)).2,
          ( list_system_annotations client date_from date_to
              (some limit) (some offset)).2]) := by
  have hsel : selectSource "all" = (true, true) := by decide
  simp only [listCore, hsel, hu, hs]
  simp

theorem list_tool_all_eq (client : HttpClient) (app_id : String)
    (date_from date_to : Option (List String)) (limit offset : Int)
    (uResp : UserAnnotationListResponse) (sResp : SystemAnnotationListResponse)
    (hdates : datesLenOk date_from date_to = true)
    (hu : ( list_user_annotations client app_id date_from date_to
        (some limit) (some offset)).1 = some uResp)
    (hs : ( list_system_annotations client date_from date_to
        (some limit) (some offset)).1 = some sResp) :
    analytics_annotations_list client app_id date_from date_to "all" limit offset
      = (mergeResponses (some uResp) (some sResp),
         [( list_user_annotations client app_id date_from date_to
              (some limit) (some offset)).2,
          ( list_system_annotations client date_from date_to
              (some limit) (some offset)).2]) := by
  cases date_from with
  | none =>
    cases date_to with
    | none =>
      simp only [analytics_annotations_list]
      exact listCore_all_eq client app_id none none limit offset uResp sResp hu hs
    | some dt =>
      simp only [analytics_annotations_list]
      exact listCore_all_eq client app_id none (some dt) limit offset uResp sResp hu hs
  | some df =>
    cases date_to with
    | none =>
      simp only [analytics_annotations_list]
      exact listCore_all_eq client app_id (some df) none limit offset uResp sResp hu hs
    | some dt =>
      have hlen : df.length = dt.length := by simpa [datesLenOk] using hdates
      simp only [analytics_annotations_list]
      rw [if_neg (fun hne => hne hlen)]
      exact listCore_all_eq client app_id (some df) (some dt) limit offset uResp sResp hu hs

/-! ## Claim theorems -/

/-- C4: for every `source="all"` call of the list tool where the user
fetch parses to `uResp` and the system fetch to `sResp`, the result data
is the concatenation of the two collections sorted descending by the date
string, and the result `meta.total` is the sum of the two fetched page
sizes.  The statement is universally quantified over the two responses'
own pagination `meta` values, which therefore do not influence the
output (they are discarded). -/
theorem C4_list_all_merge (client : HttpClient) (app_id : String)
    (date_from date_to : Option (List String)) (limit offset : Int)
    (uResp : UserAnnotationListResponse) (sResp : SystemAnnotationListResponse)
    (hdates : datesLenOk date_from date_to = true)
    (hu : ( list_user_annotations client app_id date_from date_to
        (some limit) (some offset)).1 = some uResp)
    (hs : ( list_system_annotations client date_from date_to
        (some limit) (some offset)).1 = some sResp) :
    ∃ out, (analytics_annotations_list client app_id date_from date_to
        "all" limit offset).1 = Except.ok out ∧
      out.data.Perm (uResp.data.map AnnotationResource.user
        ++ sResp.data.map AnnotationResource.system) ∧
      out.data.Pairwise
        (fun a b => AnnotationResource.date b ≤ AnnotationResource.date a) ∧
      out.meta = [("total", uResp.data.length + sResp.data.length)] := by
  refine ⟨⟨pySortDescByDate (uResp.data.map AnnotationResource.user
      ++ sResp.data.map AnnotationResource.system),
    [("total", uResp.data.length + sResp.data.length)]⟩, ?_, ?_, ?_, ?_⟩
  · rw [list_tool_all_eq client app_id date_from date_to limit offset uResp sResp
      hdates hu hs]
    rfl
  · exact pySortDescByDate_perm _
  · exact pySortDescByDate_sorted _
  · rfl

/-- C4 witness: the spec example — user source returning 2 items, system
source returning 3 — yields 5 items sorted descending by date and
`meta.total = 5`. -/
theorem C4_list_all_merge_witness :
    ∃ out, (analytics_annotations_list clientBoth "app-1" none none
        "all" 10 0).1 = Except.ok out ∧
      out.data.Perm
        [AnnotationResource.user ( sampleUserParsed "u1" "2024-03-05" "user a"),
         AnnotationResource.user ( sampleUserParsed "u2" "2024-03-01" "user b"),
         AnnotationResource.system ( sampleSystemParsed "s1" "2024-03-05" "sys a"),
         AnnotationResource.system ( sampleSystemParsed "s2" "2024-03-09" "sys b"),
         AnnotationResource.system ( sampleSystemParsed "s3" "2024-03-01" "sys c")] ∧
      out.data.Pairwise
        (fun a b => AnnotationResource.date b ≤ AnnotationResource.date a) ∧
      out.meta = [("total", 2 + 3)] :=
  C4_list_all_merge clientBoth "app-1" none none 10 0
    ⟨[ sampleUserParsed "u1" "2024-03-05" "user a",
       sampleUserParsed "u2" "2024-03-01" "user b"], ⟨2⟩⟩
    ⟨[ sampleSystemParsed "s1" "2024-03-05" "sys a",
       sampleSystemParsed "s2" "2024-03-09" "sys b",
       sampleSystemParsed "s3" "2024-03-01" "sys c"], ⟨3⟩⟩
    rfl rfl rfl

/-- C10: the merge of the list tool is a stable sort on the date key
alone: restricted to any fixed date `d`, the output of a `source="all"`
call equals the concatenation user-then-system in original fetch order —
so on equal dates every user annotation precedes every system annotation
and each source keeps its fetch order. -/
theorem C10_merge_stable (client : HttpClient) (app_id : String)
    (date_from date_to : Option (List String)) (limit offset : Int)
    (uResp : UserAnnotationListResponse) (sResp : SystemAnnotationListResponse)
    (hdates : datesLenOk date_from date_to = true)
    (hu : ( list_user_annotations client app_id date_from date_to
        (some limit) (some offset)).1 = some uResp)
    (hs : ( list_system_annotations client date_from date_to
        (some limit) (some offset)).1 = some sResp)
    (d : String) :
    ∃ out, (analytics_annotations_list client app_id date_from date_to
        "all" limit offset).1 = Except.ok out ∧
      out.data.filter (fun a => AnnotationResource.date a == d)
        = (uResp.data.map AnnotationResource.user
            ++ sResp.data.map AnnotationResource.system).filter
              (fun a => AnnotationResource.date a == d) := by
  refine ⟨⟨pySortDescByDate (uResp.data.map AnnotationResource.user
      ++ sResp.data.map AnnotationResource.system),
    [("total", uResp.data.length + sResp.data.length)]⟩, ?_, ?_⟩
  · rw [list_tool_all_eq client app_id date_from date_to limit offset uResp sResp
      hdates hu hs]
    rfl
  · exact pySortDescByDate_filter _ d

/-- C10 witness: on the 2+3 example, the entries dated 2024-03-05 appear
in the output as the user annotation first, then the system annotation. -/
theorem C10_merge_stable_witness :
    ∃ out, (analytics_annotations_list clientBoth "app-1" none none
        "all" 10 0).1 = Except.ok out ∧
      out.data.filter (fun a => AnnotationResource.date a == "2024-03-05")
        = [AnnotationResource.user ( sampleUserParsed "u1" "2024-03-05" "user a"),
           AnnotationResource.user ( sampleUserParsed "u2" "2024-03-01" "user b"),
           AnnotationResource.system ( sampleSystemParsed "s1" "2024-03-05" "sys a"),
           AnnotationResource.system ( sampleSystemParsed "s2" "2024-03-09" "sys b"),
           AnnotationResource.system ( sampleSystemParsed "s3" "2024-03-01" "sys c")].filter
            (fun a => AnnotationResource.date a == "2024-03-05") :=
  C10_merge_stable clientBoth "app-1" none none 10 0
    ⟨[ sampleUserParsed "u1" "2024-03-05" "user a",
       sampleUserParsed "u2" "2024-03-01" "user b"], ⟨2⟩⟩
    ⟨[ sampleSystemParsed "s1" "2024-03-05" "sys a",
       sampleSystemParsed "s2" "2024-03-09" "sys b",
       sampleSystemParsed "s3" "2024-03-01" "sys c"], ⟨3⟩⟩
    rfl rfl rfl "2024-03-05"

/-- C5: when both `date_from` and `date_to` are supplied with differing
lengths, the list tool fails with the descriptive `RuntimeError` and its
request trace is empty — no list endpoint is invoked. -/
theorem C5_date_mismatch_no_call (client : HttpClient) (app_id source : String)
    (df dt : List String) (limit offset : Int)
    (h : df.length ≠ dt.length) :
    analytics_annotations_list client app_id (some df) (some dt)
        source limit offset
      = (Except.error (ToolError.runtimeError
          "date_from and date_to must have the same number of items"), []) := by
  simp only [analytics_annotations_list]
  rw [if_pos h]

/-- C5 witness: the spec example, two start dates against one end date. -/
theorem C5_date_mismatch_no_call_witness :
    (["2024-01-01", "2024-01-02"] : List String).length
        ≠ (["2024-01-31"] : List String).length ∧
      analytics_annotations_list clientNone "app-1"
          (some ["2024-01-01", "2024-01-02"]) (some ["2024-01-31"]) "all" 10 0
        = (Except.error (ToolError.runtimeError
            "date_from and date_to must have the same number of items"), []) :=
  ⟨by decide,
   C5_date_mismatch_no_call clientNone "app-1" "all"
     ["2024-01-01", "2024-01-02"] ["2024-01-31"] 10 0 (by decide)⟩

/-! ## Helper lemmas about the query encoding -/

theorem filterKey_append (k : String) (a b : List (String × String)) :
    filterKey k (a ++ b) = filterKey k a ++ filterKey k b := by
  induction a with
  | nil => rfl
  | cons p ps ih =>
    simp only [List.cons_append, filterKey]
    split <;> simp [ih]

theorem filterKey_map_same (k : String) (xs : List String) :
    filterKey k (xs.map (fun s => (k, s))) = xs.map (fun s => (k, s)) := by
  induction xs with
  | nil => rfl
  | cons x xs ih => simp [filterKey, ih]

theorem filterKey_map_other (k q : String) (hne : q ≠ k) (xs : List String) :
    filterKey q (xs.map (fun s => (k, s))) = [] := by
  induction xs with
  | nil => rfl
  | cons x xs ih => simp [filterKey, hne.symm, ih]

/-- C1 counterexample: with the fetch reporting kind `SystemAnnotation`,
the delete tool fails with the pydantic validation error raised while
parsing the `get` response — it never inspects the kind and never produces
the guard's descriptive `RuntimeError` — though indeed no delete request is
issued (the trace is the single GET). -/
theorem C1_counterexample :
    (analytics_annotations_delete clientSysSingle "ann-sys" "app-1").1
        = Except.error ToolError.validationError ∧
      (analytics_annotations_delete clientSysSingle "ann-sys" "app-1").1
        ≠ Except.error (ToolError.runtimeError
            "System annotations cannot be deleted.") ∧
      (analytics_annotations_delete clientSysSingle "ann-sys" "app-1").2
        = [HttpRequest.get (USER_ANNOTATIONS_BASE ++ "/" ++ "ann-sys" ++ "/")
            [("website_id", ParamValue.str "app-1")]] := by
  refine ⟨rfl, ?_, rfl⟩
  have h1 : (analytics_annotations_delete clientSysSingle "ann-sys" "app-1").1
      = Except.error ToolError.validationError := rfl
  rw [h1]
  simp

/-- C1 (amended): for every delete call where the fetched body's resource
kind is `SystemAnnotation`, the tool fails before any delete — but with
the validation error raised while parsing the fetch response (the model
admits only kind `UserAnnotation`), the kind-inspecting guard never being
reached — and the trace is the single GET, so no delete request is sent. -/
theorem C1_delete_system_fails_before_delete (client : HttpClient)
    (annotation_id app_id : String) (b : RawBody) (r : RawResource)
    (hresp : client.getResp (USER_ANNOTATIONS_BASE ++ "/" ++ annotation_id ++ "/")
        [("website_id", ParamValue.str app_id)] = some b)
    (hdata : b.data = some (RawData.single r))
    (htype : r.type = some "SystemAnnotation") :
    (analytics_annotations_delete client annotation_id app_id).1
        = Except.error ToolError.validationError ∧
      (analytics_annotations_delete client annotation_id app_id).2
        = [HttpRequest.get (USER_ANNOTATIONS_BASE ++ "/" ++ annotation_id ++ "/")
            [("website_id", ParamValue.str app_id)]] := by
  have hparse : parseUserSingle b = none := by
    obtain ⟨rid, rty, rattrs⟩ := r
    have hty : rty = some "SystemAnnotation" := htype
    subst hty
    unfold parseUserSingle
    rw [hdata]
    cases rid <;> cases rattrs <;> simp [parseUserResource]
  have hmain : analytics_annotations_delete client annotation_id app_id
      = (Except.error ToolError.validationError,
         [HttpRequest.get (USER_ANNOTATIONS_BASE ++ "/" ++ annotation_id ++ "/")
            [("website_id", ParamValue.str app_id)]]) := by
    simp only [analytics_annotations_delete, get_user_annotation, hresp,
      Option.getD_some, hparse]
  exact ⟨congrArg Prod.fst hmain, congrArg Prod.snd hmain⟩

/-- C1 witness: the amended statement discharged at the concrete
system-annotation client. -/
theorem C1_delete_system_fails_before_delete_witness :
    (analytics_annotations_delete clientSysSingle "ann-sys" "app-1").1
        = Except.error ToolError.validationError ∧
      (analytics_annotations_delete clientSysSingle "ann-sys" "app-1").2
        = [HttpRequest.get (USER_ANNOTATIONS_BASE ++ "/" ++ "ann-sys" ++ "/")
            [("website_id", ParamValue.str "app-1")]] :=
  C1_delete_system_fails_before_delete clientSysSingle "ann-sys" "app-1"
    ⟨some (RawData.single (sampleSystemRaw "ann-sys" "2024-02-01" "maintenance")), none⟩
    (sampleSystemRaw "ann-sys" "2024-02-01" "maintenance") rfl rfl rfl

/-- C2 (the code evaluated at the failing input): the fetch succeeds on a
valid user annotation, but line 114's dict-style access on the pydantic
model raises `AttributeError`, so the tool never reaches the delete call —
the trace holds only the GET, not the request ` delete_user_annotation`
would have issued. -/
theorem C2_delete_user_attribute_error :
    analytics_annotations_delete clientUserSingle "ann-user" "app-1"
      = (Except.error (ToolError.attributeError
          "UserAnnotationSingleResponse object has no attribute get"),
         [HttpRequest.get (USER_ANNOTATIONS_BASE ++ "/" ++ "ann-user" ++ "/")
            [("website_id", ParamValue.str "app-1")]]) ∧
      ( delete_user_annotation "ann-user" "app-1")
        ∉ (analytics_annotations_delete clientUserSingle "ann-user" "app-1").2 := by
  refine ⟨rfl, ?_⟩
  decide

/-- C3 (the code evaluated at the failing input): with `source="user"` the
tool calls only the user endpoint — the trace is exactly the one user-list
GET, the system endpoint is never invoked — but it then crashes with
`AttributeError` at the merge, `system_resp` still being `None`, instead of
returning the user collection. -/
theorem C3_list_source_user_crash :
    analytics_annotations_list clientBoth "app-1" none none "user" 10 0
      = (Except.error (ToolError.attributeError
          "NoneType object has no attribute data"),
         [HttpRequest.get (USER_ANNOTATIONS_BASE ++ "/")
            (userListParams "app-1" none none (some 10) (some 0))]) := by
  rfl

/-- C6 counterexample: a missing response body on create is replaced by
the empty dict, but validating that empty record fails (`data` is a
required field), so the operation raises a validation error instead of
returning an empty record. -/
theorem C6_counterexample :
    ( create_user_annotation clientNone "app-1" "launch" "2024-01-01"
        (some "private")).1 = none ∧
      parseUserSingle emptyRawBody = none :=
  ⟨rfl, rfl⟩

/-- C6 (amended): a missing body is normalised to the empty record before
validation — and `delete`, which parses no response at all, tolerates a
bodiless 204 — but every parsing operation (create, get, update, both
lists) then fails validation on the empty record, its required fields
being absent, rather than returning an empty record. -/
theorem C6_missing_body_fails_validation (client : HttpClient)
    (hget : ∀ p q, client.getResp p q = none)
    (hpost : ∀ p b, client.postResp p b = none)
    (hpatch : ∀ p b, client.patchResp p b = none)
    (app_id content date annotation_id : String) (visibility : Option String)
    (date_from date_to : Option (List String)) (limit offset : Option Int) :
    ( create_user_annotation client app_id content date visibility).1 = none ∧
      ( get_user_annotation client annotation_id app_id).1 = none ∧
      ( update_user_annotation client annotation_id app_id content date
          visibility).1 = none ∧
      ( list_user_annotations client app_id date_from date_to limit
          offset).1 = none ∧
      ( list_system_annotations client date_from date_to limit offset).1 = none ∧
      ( delete_user_annotation annotation_id app_id)
        = HttpRequest.delete (USER_ANNOTATIONS_BASE ++ "/" ++ annotation_id ++ "/")
            [("website_id", ParamValue.str app_id)] := by
  refine ⟨?_, ?_, ?_, ?_, ?_, rfl⟩ <;>
    simp [ create_user_annotation, get_user_annotation, update_user_annotation,
      list_user_annotations, list_system_annotations, hget, hpost, hpatch,
      parseUserSingle, parseUserList, parseSystemList, emptyRawBody]

/-- C6 witness: the amended statement discharged at the all-bodiless
client. -/
theorem C6_missing_body_fails_validation_witness :
    ( create_user_annotation clientNone "app-1" "launch" "2024-01-01"
        (some "private")).1 = none ∧
      ( get_user_annotation clientNone "ann-1" "app-1").1 = none ∧
      ( update_user_annotation clientNone "ann-1" "app-1" "launch" "2024-01-01"
          (some "private")).1 = none ∧
      ( list_user_annotations clientNone "app-1" none none none none).1 = none ∧
      ( list_system_annotations clientNone none none none none).1 = none ∧
      ( delete_user_annotation "ann-1" "app-1")
        = HttpRequest.delete (USER_ANNOTATIONS_BASE ++ "/" ++ "ann-1" ++ "/")
            [("website_id", ParamValue.str "app-1")] :=
  C6_missing_body_fails_validation clientNone
    (fun _ _ => rfl) (fun _ _ => rfl) (fun _ _ => rfl)
    "app-1" "launch" "2024-01-01" "ann-1" (some "private") none none none none

/-- C7: for every create and update call the payload attributes are
exactly `website_id`, `content`, `date`, plus `visibility` exactly when it
is not the absent sentinel `None` — so the default `"private"` is carried
in the payload, not omitted — with the call's own argument values; and
update's payload attributes coincide with create's. -/
theorem C7_payload_attributes_exact (client : HttpClient)
    (app_id content date annotation_id : String) (visibility : Option String) :
    (payloadAttributes ( create_user_annotation client app_id content date
        visibility).2).map Prod.fst
      = ["website_id", "content", "date"]
        ++ (match visibility with | some _ => ["visibility"] | none => []) ∧
      (payloadAttributes ( create_user_annotation client app_id content date
          visibility).2).lookup "website_id" = some app_id ∧
      (payloadAttributes ( create_user_annotation client app_id content date
          visibility).2).lookup "content" = some content ∧
      (payloadAttributes ( create_user_annotation client app_id content date
          visibility).2).lookup "date" = some date ∧
      (payloadAttributes ( create_user_annotation client app_id content date
          visibility).2).lookup "visibility" = visibility ∧
      payloadAttributes ( update_user_annotation client annotation_id app_id
          content date visibility).2
        = payloadAttributes ( create_user_annotation client app_id content date
            visibility).2 := by
  cases visibility <;>
    simp [payloadAttributes, create_user_annotation, update_user_annotation,
      buildAttributes, List.lookup]

/-- C8: the user-list query always carries `website_id`; `limit` and
`offset` occur exactly when supplied; and `date_from`/`date_to`, when
supplied as N-element lists, occur as N repeated key/value occurrences in
the encoded query — one per element, never a single joined value — and are
absent when not supplied. -/
theorem C8_user_list_query_encoding (client : HttpClient) (app_id : String)
    (date_from date_to : Option (List String)) (limit offset : Option Int) :
    ( list_user_annotations client app_id date_from date_to limit offset).2
        = HttpRequest.get (USER_ANNOTATIONS_BASE ++ "/")
            (userListParams app_id date_from date_to limit offset) ∧
      filterKey "website_id"
          (encodeQuery (userListParams app_id date_from date_to limit offset))
        = [("website_id", app_id)] ∧
      filterKey "limit"
          (encodeQuery (userListParams app_id date_from date_to limit offset))
        = (match limit with
           | some l => [("limit", toString l)]
           | none => []) ∧
      filterKey "offset"
          (encodeQuery (userListParams app_id date_from date_to limit offset))
        = (match offset with
           | some o => [("offset", toString o)]
           | none => []) ∧
      filterKey "date_from"
          (encodeQuery (userListParams app_id date_from date_to limit offset))
        = (match date_from with
           | some df => df.map (fun s => ("date_from", s))
           | none => []) ∧
      filterKey "date_to"
          (encodeQuery (userListParams app_id date_from date_to limit offset))
        = (match date_to with
           | some dt => dt.map (fun s => ("date_to", s))
           | none => []) := by
  refine ⟨rfl, ?_, ?_, ?_, ?_, ?_⟩ <;>
    cases limit <;> cases offset <;> cases date_from <;> cases date_to <;>
      simp [userListParams, encodeQuery, filterKey, filterKey_append,
        filterKey_map_same, filterKey_map_other]

/-- C9: the single-annotation response model admits only the literal type
`"UserAnnotation"`: every successfully parsed resource has that type (and
line 115's lowercased comparison against "systemannotation" is false on
it); a raw resource whose type is `"SystemAnnotation"` fails validation;
and consequently no delete-tool run can ever fail with the guard's
"System annotations cannot be deleted." error — that branch is
unreachable. -/
theorem C9_guard_unreachable :
    (∀ r pr, parseUserResource r = some pr →
        r.type = some "UserAnnotation" ∧ pr.type = "UserAnnotation" ∧
          (pyLower pr.type == "systemannotation") = false) ∧
      (∀ r, r.type = some "SystemAnnotation" → parseUserResource r = none) ∧
      (∀ (client : HttpClient) (annotation_id app_id : String),
        (analytics_annotations_delete client annotation_id app_id).1
          ≠ Except.error (ToolError.runtimeError
              "System annotations cannot be deleted.")) := by
  refine ⟨?_, ?_, ?_⟩
  · intro r pr h
    obtain ⟨rid, rty, rattrs⟩ := r
    rcases rid with _ | i
    · simp [parseUserResource] at h
    rcases rty with _ | t
    · simp [parseUserResource] at h
    rcases rattrs with _ | a
    · simp [parseUserResource] at h
    simp only [parseUserResource] at h
    by_cases ht : t = "UserAnnotation"
    · subst ht
      rw [if_pos rfl] at h
      cases hpa : parseUserAttributes a with
      | none => rw [hpa] at h; exact absurd h (by simp)
      | some pa =>
        rw [hpa] at h
        cases h
        refine ⟨rfl, rfl, ?_⟩
        show (pyLower "UserAnnotation" == "systemannotation") = false
        decide
    · rw [if_neg ht] at h
      exact absurd h (by simp)
  · intro r h
    obtain ⟨rid, rty, rattrs⟩ := r
    have hty : rty = some "SystemAnnotation" := h
    subst hty
    cases rid <;> cases rattrs <;> simp [parseUserResource]
  · intro client annotation_id app_id h
    simp only [analytics_annotations_delete] at h
    cases hg : ( get_user_annotation client annotation_id app_id).1 with
    | none => rw [hg] at h; simp at h
    | some d => rw [hg] at h; simp at h

/-- C9 witness: the parse failure and the unreachability discharged at
concrete inputs. -/
theorem C9_guard_unreachable_witness :
    parseUserResource (sampleSystemRaw "s1" "2024-01-01" "x") = none ∧
      (analytics_annotations_delete clientUserSingle "ann-user" "app-1").1
        ≠ Except.error (ToolError.runtimeError
            "System annotations cannot be deleted.") :=
  ⟨C9_guard_unreachable.2.1 (sampleSystemRaw "s1" "2024-01-01" "x") rfl,
   C9_guard_unreachable.2.2 clientUserSingle "ann-user" "app-1"⟩
